import Mathlib

/-!
Verification development for the hotel booking core of `src/index.py`.

The embedding covers the pricing engine (`calculate_booking_amount`), the two
regex validators (`validate_email`, `validate_phone`), the booking submission
handler of `booking_system` (validation, room selection, booking construction,
room/customer updates), and the data-store read path (`HotelDataManager.load_data`).

Conventions of the embedding:
* Python `int` values become `ℤ` (arbitrary precision in Python, no overflow).
* Money is modelled with exact rationals `ℚ`.  Python computes the discounted
  total in IEEE floats; for all quantities produced by this code the exact
  value is a multiple of 1/100, so 2-decimal rounding is the identity and the
  float representation question does not affect the stated properties.
  `round2` models Python's `round(x, 2)`; Python rounds ties to even while
  `pyRound` rounds ties up, but the argument `x * 100` is always an integer
  here (proved below), so no tie ever arises.
* Strings are Lean `String`s (lists of characters).  The regexes of the source
  are embedded by enumerating all splits of the character list, which is the
  standard backtracking semantics of the concrete patterns used.
  Python's `\d`, `\s` and `str.strip()` also accept non-ASCII digit/space
  code points; the embedding uses the ASCII sets, which is faithful on
  every input considered here.
* `datetime.now()` is modelled as an explicit `DateTimeStamp` argument to the
  submission handler; `strftime` zero-pads every field, which `padDigits`
  reproduces for in-range field values.
-/

namespace Hotel

/-! ### Python string helpers -/

/-- ASCII whitespace, the characters stripped by Python's `str.strip()` and
matched by `\s` (restricted to ASCII). -/
def isPySpace (c : Char) : Bool :=
  c = ' ' || c = '\t' || c = '\n' || c = '\r' || c = '\x0b' || c = '\x0c'

/-- `str.strip()` on a character list: drop whitespace from both ends. -/
def pyStrip (cs : List Char) : List Char :=
  ((cs.dropWhile isPySpace).reverse.dropWhile isPySpace).reverse

/-- `str.strip()` on a `String`. -/
def pyStripStr (s : String) : String :=
  ⟨pyStrip s.data⟩

/-! ### Email validator, from `validate_email` (src/index.py:126-129)

The source matches `r'^[a-zA-Z0-9._%+-]+@[a-zA-Z0-9.-]+\.[a-zA-Z]{2,}$'`
with `re.match`. -/

/-- The character class `[a-zA-Z0-9._%+-]` of the local part. -/
def emailLocalChar (c : Char) : Bool :=
  c.isAlpha || c.isDigit || c = '.' || c = '_' || c = '%' || c = '+' || c = '-'

/-- The character class `[a-zA-Z0-9.-]` of the domain part. -/
def emailDomainChar (c : Char) : Bool :=
  c.isAlpha || c.isDigit || c = '.' || c = '-'

/-- All ways to split a character list into a prefix and a suffix, in order.
Used to embed regex backtracking. -/
def listSplits : List Char → List (List Char × List Char)
  | [] => [([], [])]
  | c :: cs => ([], c :: cs) :: (listSplits cs).map (fun p => (c :: p.1, p.2))

/-- The tail `\.[a-zA-Z]{2,}` of the pattern: a literal dot then at least two
letters, consuming the rest of the input. -/
def domainTailCheck (r : List Char) : Bool :=
  match r with
  | c :: t => (c == '.') && decide (2 ≤ t.length) && t.all Char.isAlpha
  | [] => false

/-- The part `[a-zA-Z0-9.-]+\.[a-zA-Z]{2,}` after the `@`. -/
def domainCheck (r : List Char) : Bool :=
  (listSplits r).any fun q => (!q.1.isEmpty) && q.1.all emailDomainChar && domainTailCheck q.2

/-- The part `@[a-zA-Z0-9.-]+\.[a-zA-Z]{2,}` after the local part. -/
def afterLocalCheck (r : List Char) : Bool :=
  match r with
  | c :: rest => (c == '@') && domainCheck rest
  | [] => false

/-- Whether the full pattern matches the whole character list. -/
def validate_email_core (cs : List Char) : Bool :=
  (listSplits cs).any fun p => (!p.1.isEmpty) && p.1.all emailLocalChar && afterLocalCheck p.2

/-- `validate_email` from the source.  `re.match` anchors at the start; the
final `$` matches at the end of the string or just before a newline that ends
the string, hence the second disjunct. -/
def validate_email (email : String) : Bool :=
  validate_email_core email.data ||
    (match email.data.getLast? with
     | some c => (c == '\n') && validate_email_core email.data.dropLast
     | none => false)

/-! ### Phone validator, from `validate_phone` (src/index.py:131-134)

The source matches `r'^(\+91[-\s]?)?[6-9]\d{9}$'` against `phone.strip()`.
The stripped string cannot end in a newline, so the `$`-before-newline case of
`re.match` is impossible here. -/

/-- The subscriber part `[6-9]\d{9}`, consuming the rest of the input. -/
def subscriberMatch (cs : List Char) : Bool :=
  match cs with
  | c :: rest =>
      decide ('6' ≤ c) && decide (c ≤ '9') && (rest.length == 9) && rest.all Char.isDigit
  | [] => false

/-- The full pattern: the optional group `(\+91[-\s]?)?` (absent; present with
no separator; present with one `-` or whitespace separator) followed by the
subscriber part.  When the input starts with `'+'` the group-absent branch
always fails since `'+'` is not in `[6-9]`. -/
def validate_phone_core (cs : List Char) : Bool :=
  subscriberMatch cs ||
    (match cs with
     | c1 :: c2 :: c3 :: rest =>
         (c1 == '+') && (c2 == '9') && (c3 == '1') &&
           (subscriberMatch rest ||
             (match rest with
              | c :: rest2 => ((c == '-') || isPySpace c) && subscriberMatch rest2
              | [] => false))
     | _ => false)

/-- `validate_phone` from the source: strip, then match the pattern. -/
def validate_phone (phone : String) : Bool :=
  validate_phone_core (pyStrip phone.data)

/-! ### Pricing engine, from `calculate_booking_amount` (src/index.py:136-161) -/

/-- The `base_prices` dictionary with its `.get(room_type, 2500)` default. -/
def base_prices (room_type : String) : ℤ :=
  if room_type = "Standard" then 2500
  else if room_type = "Deluxe" then 4000
  else if room_type = "Suite" then 7500
  else if room_type = "Presidential" then 15000
  else 2500

/-- Round a rational to the nearest integer, halves up: `⌊q + 1/2⌋`, computed
as the floor division `(2 * num + den) / (2 * den)`.  Python's `round` sends
halves to even instead, but ties never occur for the values produced by the
pricing code (the argument is always an integer, see `round2_pct15` etc.), so
on all reachable values every rounding mode agrees. -/
def pyRound (q : ℚ) : ℤ :=
  (2 * q.num + (q.den : ℤ)) / (2 * (q.den : ℤ))

/-- Python's `round(x, 2)` on exact rationals: round `x * 100` to an integer
and divide back. -/
def round2 (q : ℚ) : ℚ :=
  ((pyRound (q * 100) : ℤ) : ℚ) / 100

/-- `calculate_booking_amount` from the source. -/
def calculate_booking_amount (room_type : String) (nights guests : ℤ) : ℚ :=
  let base_price : ℤ := base_prices room_type
  let extra_guest_charge : ℤ := max 0 (guests - 2) * 500 * nights
  let discount : ℚ := if 7 ≤ nights then 15 / 100 else if 3 ≤ nights then 10 / 100 else 0
  round2 (((base_price * nights + extra_guest_charge : ℤ) : ℚ) * (1 - discount))

/-! ### Data model -/

/-- A room record, as stored in `rooms.json`. -/
structure Room where
  room_number : String
  room_type : String
  price : ℚ
  capacity : ℤ
  status : String
deriving DecidableEq

/-- A booking record, as built in `booking_system` (src/index.py:303-321).
`check_in`/`check_out` are day ordinals (the source stores `str(date)`;
only their difference and identity matter here). -/
structure Booking where
  booking_id : String
  customer_name : String
  customer_email : String
  customer_phone : String
  customer_address : String
  id_proof : String
  id_number : String
  room_number : String
  room_type : String
  guests : ℤ
  check_in : ℤ
  check_out : ℤ
  nights : ℤ
  total_amount : ℚ
  special_requests : String
  booking_date : String
  status : String
deriving DecidableEq

/-- A customer record, as stored in `customers.json`. -/
structure Customer where
  name : String
  email : String
  phone : String
  address : String
  registration_date : String
deriving DecidableEq

/-- The form data of one submission of the booking form. -/
structure BookingRequest where
  customer_name : String
  customer_email : String
  customer_phone : String
  customer_address : String
  id_proof : String
  id_number : String
  room_type : String
  guests : ℤ
  check_in : ℤ
  check_out : ℤ
  special_requests : String
deriving DecidableEq

/-- The three persisted collections the submission handler touches. -/
structure HotelState where
  rooms : List Room
  bookings : List Booking
  customers : List Customer
deriving DecidableEq

/-- The observable outcome of one submission: the messages shown through
`st.error`, the booking created (if any), and the persisted collections. -/
structure SubmitOutcome where
  errors : List String
  booking : Option Booking
  state : HotelState
deriving DecidableEq

/-! ### Timestamps, from `datetime.now().strftime(...)` -/

/-- A wall-clock reading at second granularity, the data `strftime` formats. -/
structure DateTimeStamp where
  year : ℕ
  month : ℕ
  day : ℕ
  hour : ℕ
  minute : ℕ
  second : ℕ
deriving DecidableEq

/-- Little-endian decimal digits of `n`, zero-padded to width `w`. -/
def lowDigits : ℕ → ℕ → List Char
  | 0, _ => []
  | w + 1, n => Nat.digitChar (n % 10) :: lowDigits w (n / 10)

/-- Zero-padded fixed-width decimal digits of `n`, most significant first,
as printed by `strftime` for in-range field values. -/
def padDigits (w n : ℕ) : List Char :=
  (lowDigits w n).reverse

/-- `strftime('%Y%m%d%H%M%S')`, the body of the generated booking id. -/
def tsCompact (dt : DateTimeStamp) : String :=
  ⟨padDigits 4 dt.year ++ padDigits 2 dt.month ++ padDigits 2 dt.day ++
    padDigits 2 dt.hour ++ padDigits 2 dt.minute ++ padDigits 2 dt.second⟩

/-- `strftime("%Y-%m-%d %H:%M:%S")`, used for `booking_date` and
`registration_date`. -/
def tsReadable (dt : DateTimeStamp) : String :=
  ⟨padDigits 4 dt.year ++ '-' :: padDigits 2 dt.month ++ '-' :: padDigits 2 dt.day ++
    ' ' :: padDigits 2 dt.hour ++ ':' :: padDigits 2 dt.minute ++ ':' :: padDigits 2 dt.second⟩

/-- Field ranges of a real clock reading (a four-digit year). -/
def DateTimeStamp.Valid (dt : DateTimeStamp) : Prop :=
  dt.year < 10000 ∧ 1 ≤ dt.month ∧ dt.month ≤ 12 ∧ 1 ≤ dt.day ∧ dt.day ≤ 31 ∧
    dt.hour < 24 ∧ dt.minute < 60 ∧ dt.second < 60

/-! ### Booking submission, from `booking_system` (src/index.py:281-345)

The model covers the `if submitted:` handler.  (The page-level early return
when no room at all is `Available` happens before the form is shown and is not
part of the submission handler.) -/

/-- The booking dictionary built at src/index.py:303-321. -/
def mkBooking (req : BookingRequest) (sel : Room) (now : DateTimeStamp) : Booking :=
  { booking_id := "BK" ++ tsCompact now
    customer_name := req.customer_name
    customer_email := req.customer_email
    customer_phone := req.customer_phone
    customer_address := req.customer_address
    id_proof := req.id_proof
    id_number := req.id_number
    room_number := sel.room_number
    room_type := req.room_type
    guests := req.guests
    check_in := req.check_in
    check_out := req.check_out
    nights := req.check_out - req.check_in
    total_amount := calculate_booking_amount req.room_type (req.check_out - req.check_in) req.guests
    special_requests := req.special_requests
    booking_date := tsReadable now
    status := "Confirmed" }

/-- The customer dictionary built at src/index.py:337-343. -/
def mkCustomer (req : BookingRequest) (now : DateTimeStamp) : Customer :=
  { name := req.customer_name
    email := req.customer_email
    phone := req.customer_phone
    address := req.customer_address
    registration_date := tsReadable now }

/-- The accumulated validation error list of src/index.py:283-292, in source
order: name, email, phone, date range. -/
def validationErrors (req : BookingRequest) : List String :=
  (if pyStripStr req.customer_name = "" then ["Customer name is required"] else []) ++
  (if pyStripStr req.customer_email = "" ∨ validate_email req.customer_email = false then
      ["Valid email address is required"] else []) ++
  (if pyStripStr req.customer_phone = "" ∨ validate_phone req.customer_phone = false then
      ["Valid phone number is required"] else []) ++
  (if req.check_out ≤ req.check_in then ["Check-out date must be after check-in date"] else [])

/-- The submission handler (src/index.py:281-345).  On validation failure the
errors are shown and nothing is persisted.  Otherwise the first `Available`
room of the requested type is selected; if none exists the handler falls
through silently (the `if selected_room:` at line 301 has no `else`).  On
success the booking is appended, every room record with the selected room's
number is flipped to `Occupied`, and a customer record is appended when the
email is new. -/
def submit_booking (req : BookingRequest) (st : HotelState) (now : DateTimeStamp) :
    SubmitOutcome :=
  let errors := validationErrors req
  if errors = [] then
    match (st.rooms.filter (fun r => r.status == "Available")).find?
        (fun r => r.room_type == req.room_type) with
    | some sel =>
        let booking := mkBooking req sel now
        { errors := []
          booking := some booking
          state :=
            { rooms := st.rooms.map (fun room =>
                if room.room_number = sel.room_number then
                  { room with status := "Occupied" } else room)
              bookings := st.bookings ++ [booking]
              customers :=
                if st.customers.any (fun c => c.email == req.customer_email) then
                  st.customers
                else
                  st.customers ++ [mkCustomer req now] } }
    | none => { errors := [], booking := none, state := st }
  else { errors := errors, booking := none, state := st }

/-! ### Data store read path, from `HotelDataManager.load_data` (src/index.py:85-94) -/

/-- The state of one backing JSON file as the `load_data` code can observe it:
missing, unreadable (the `open`/read raises), readable but not valid JSON
(`json.load` raises), or readable with parsed records. -/
inductive StoredFile (α : Type) where
  | absent : StoredFile α
  | readFailure : StoredFile α
  | parseFailure : StoredFile α
  | content : List α → StoredFile α
deriving DecidableEq

/-- `load_data`: the `os.path.exists` guard skips a missing file; any exception
from opening, reading or parsing is caught (an `st.error` message is shown) and
the function returns `[]`. -/
def load_data {α : Type} : StoredFile α → List α
  | .absent => []
  | .readFailure => []
  | .parseFailure => []
  | .content rs => rs

/-! ### Spec-side definitions (written from the claims, for comparison) -/

/-- Modelled from the claim wording of C1: the price formula
`(base_price * nights + max(0, guests - 2) * 500 * nights) * (1 - discount)`
rounded to 2 decimal places, with the stated base-price table and discount
tiers. -/
def compute_price_spec (room_type : String) (nights guests : ℤ) : ℚ :=
  let base_price : ℤ :=
    if room_type = "Standard" then 2500
    else if room_type = "Deluxe" then 4000
    else if room_type = "Suite" then 7500
    else if room_type = "Presidential" then 15000
    else 2500
  let discount : ℚ := if 7 ≤ nights then 15 / 100 else if 3 ≤ nights then 10 / 100 else 0
  round2 (((base_price * nights + max 0 (guests - 2) * 500 * nights : ℤ) : ℚ) * (1 - discount))

/-- Modelled from the claim wording of C6: `s` has the shape
`local@domain.tld` — a nonempty local part over letters/digits/`._%+-`, an
`@`, a nonempty domain part over letters/digits/`.`/`-` (labels separated by
dots), a dot, and a final label of at least two letters. -/
def emailShapeP (cs : List Char) : Prop :=
  ∃ l d t : List Char,
    cs = l ++ '@' :: (d ++ '.' :: t) ∧
    l ≠ [] ∧ (∀ c ∈ l, emailLocalChar c = true) ∧
    d ≠ [] ∧ (∀ c ∈ d, emailDomainChar c = true) ∧
    2 ≤ t.length ∧ (∀ c ∈ t, Char.isAlpha c = true)

/-- Modelled from the claim wording of C7: exactly 10 digits whose first digit
is 6, 7, 8 or 9. -/
def tenDigits (cs : List Char) : Bool :=
  (cs.length == 10) && cs.all Char.isDigit &&
    (match cs with
     | c :: _ => (c == '6') || (c == '7') || (c == '8') || (c == '9')
     | [] => false)

/-- Modelled from the claim wording of C7: after trimming whitespace, an
optional `+91` prefix followed by exactly 10 digits starting in 6-9. -/
def phoneShape (s : String) : Bool :=
  tenDigits (pyStrip s.data) ||
    (match pyStrip s.data with
     | c1 :: c2 :: c3 :: rest => (c1 == '+') && (c2 == '9') && (c3 == '1') && tenDigits rest
     | _ => false)

/-- The amended shape for C7: as `phoneShape`, but the `+91` prefix may be
followed by one `-` or whitespace separator before the 10 digits (the
`[-\s]?` of the source pattern). -/
def phoneShapeAmended (s : String) : Bool :=
  tenDigits (pyStrip s.data) ||
    (match pyStrip s.data with
     | c1 :: c2 :: c3 :: rest =>
         (c1 == '+') && (c2 == '9') && (c3 == '1') &&
           (tenDigits rest ||
             (match rest with
              | c :: rest2 => ((c == '-') || isPySpace c) && tenDigits rest2
              | [] => false))
     | _ => false)

/-! ### Concrete fixtures used by witnesses and counterexamples -/

/-- Room 101, Standard, Available (from the seed list). -/
def roomStd101 : Room :=
  { room_number := "101", room_type := "Standard", price := 2500, capacity := 2
    status := "Available" }

/-- Room 102, Standard, Available (from the seed list). -/
def roomStd102 : Room :=
  { room_number := "102", room_type := "Standard", price := 2500, capacity := 2
    status := "Available" }

/-- A state with two available Standard rooms and no bookings or customers. -/
def stateA : HotelState :=
  { rooms := [roomStd101, roomStd102], bookings := [], customers := [] }

/-- A fully valid booking request for a Standard room. -/
def reqAlice : BookingRequest :=
  { customer_name := "Alice", customer_email := "alice@example.com"
    customer_phone := "9876543210", customer_address := "12 Park Street"
    id_proof := "Aadhar Card", id_number := "A1", room_type := "Standard"
    guests := 2, check_in := 100, check_out := 102, special_requests := "" }

/-- A second fully valid booking request for a Standard room. -/
def reqBob : BookingRequest :=
  { customer_name := "Bob", customer_email := "bob@example.com"
    customer_phone := "8876543210", customer_address := "7 Lake Road"
    id_proof := "PAN Card", id_number := "B2", room_type := "Standard"
    guests := 3, check_in := 200, check_out := 210, special_requests := "" }

/-- A fully valid request for a Deluxe room (no Deluxe room exists in
`stateA`). -/
def reqDeluxe : BookingRequest :=
  { customer_name := "Carol", customer_email := "carol@example.com"
    customer_phone := "7876543210", customer_address := ""
    id_proof := "Passport", id_number := "C3", room_type := "Deluxe"
    guests := 1, check_in := 300, check_out := 301, special_requests := "" }

/-- A request failing all four validations: blank name, malformed email,
phone starting with 1, check-out not after check-in. -/
def reqBad : BookingRequest :=
  { customer_name := " ", customer_email := "bad@"
    customer_phone := "1234567890", customer_address := ""
    id_proof := "Aadhar Card", id_number := "", room_type := "Standard"
    guests := 2, check_in := 100, check_out := 100, special_requests := "" }

/-- A clock reading. -/
def ts1 : DateTimeStamp :=
  { year := 2025, month := 10, day := 12, hour := 9, minute := 30, second := 15 }

/-- A clock reading one second after `ts1`. -/
def ts2 : DateTimeStamp :=
  { year := 2025, month := 10, day := 12, hour := 9, minute := 30, second := 16 }

/-! ### Helper lemmas -/

/-- Two booleans agreeing as propositions are equal. -/
theorem bool_ext {a b : Bool} (h : a = true ↔ b = true) : a = b := by
  cases a <;> cases b <;> simp_all

/-- `pyRound` is the identity on integers. -/
theorem pyRound_intCast (m : ℤ) : pyRound ((m : ℤ) : ℚ) = m := by
  unfold pyRound
  rw [Rat.num_intCast, Rat.den_intCast]
  simp only [Nat.cast_one, mul_one]
  omega

/-- Rounding to 2 decimals is the identity on `k * (1 - 0)` for integer `k`. -/
theorem round2_pct0 (k : ℤ) : round2 ((k : ℚ) * (1 - 0)) = (k : ℚ) * (1 - 0) := by
  unfold round2
  have h : ((k : ℚ) * (1 - 0)) * 100 = ((100 * k : ℤ) : ℚ) := by push_cast; ring
  rw [h, pyRound_intCast]
  push_cast; ring

/-- Rounding to 2 decimals is the identity on `k * (1 - 10/100)` for integer `k`. -/
theorem round2_pct10 (k : ℤ) :
    round2 ((k : ℚ) * (1 - 10 / 100)) = (k : ℚ) * (1 - 10 / 100) := by
  unfold round2
  have h : ((k : ℚ) * (1 - 10 / 100)) * 100 = ((90 * k : ℤ) : ℚ) := by push_cast; ring
  rw [h, pyRound_intCast]
  push_cast; ring

/-- Rounding to 2 decimals is the identity on `k * (1 - 15/100)` for integer `k`. -/
theorem round2_pct15 (k : ℤ) :
    round2 ((k : ℚ) * (1 - 15 / 100)) = (k : ℚ) * (1 - 15 / 100) := by
  unfold round2
  have h : ((k : ℚ) * (1 - 15 / 100)) * 100 = ((85 * k : ℤ) : ℚ) := by push_cast; ring
  rw [h, pyRound_intCast]
  push_cast; ring

/-- The spec-side price equals the exact (unrounded) discount formula: the
2-decimal rounding step never changes the value. -/
theorem compute_price_spec_unrounded (rt : String) (n g : ℤ) :
    compute_price_spec rt n g =
      ((base_prices rt * n + max 0 (g - 2) * 500 * n : ℤ) : ℚ) *
        (1 - (if 7 ≤ n then (15 : ℚ) / 100 else if 3 ≤ n then 10 / 100 else 0)) := by
  simp only [compute_price_spec, base_prices]
  rcases le_or_lt 7 n with h7 | h7
  · rw [if_pos h7]
    exact round2_pct15 _
  · rcases le_or_lt 3 n with h3 | h3
    · rw [if_neg (not_le.mpr h7), if_pos h3]
      exact round2_pct10 _
    · rw [if_neg (not_le.mpr h7), if_neg (not_le.mpr h3)]
      exact round2_pct0 _

/-! ### Claim C1 -/

/-- Claim C1: for every room type string and integers `nights ≥ 1`,
`guests ≥ 1`, `calculate_booking_amount` equals the claimed formula
`(base_price * nights + max(0, guests - 2) * 500 * nights) * (1 - discount)`
rounded to 2 decimal places, with the stated base-price table and discount
tiers; moreover the rounding step is the identity (the exact value has at
most 2 decimals), and the three quoted sample values hold. -/
theorem claim1_pricing_formula :
    (∀ (room_type : String) (nights guests : ℤ), 1 ≤ nights → 1 ≤ guests →
      calculate_booking_amount room_type nights guests = compute_price_spec room_type nights guests ∧
      calculate_booking_amount room_type nights guests =
        ((base_prices room_type * nights + max 0 (guests - 2) * 500 * nights : ℤ) : ℚ) *
          (1 - (if 7 ≤ nights then (15 : ℚ) / 100 else if 3 ≤ nights then 10 / 100 else 0))) ∧
    calculate_booking_amount "Standard" 1 2 = 2500 ∧
    calculate_booking_amount "Deluxe" 3 2 = 10800 ∧
    calculate_booking_amount "Suite" 7 4 = 50575 := by
  refine ⟨fun room_type nights guests _ _ => ⟨rfl, ?_⟩,
    by with_unfolding_all rfl, by with_unfolding_all rfl, by with_unfolding_all rfl⟩
  exact compute_price_spec_unrounded room_type nights guests

/-- Witness for C1 at a concrete input. -/
theorem claim1_pricing_formula_witness :
    calculate_booking_amount "Presidential" 3 5 = compute_price_spec "Presidential" 3 5 :=
  (claim1_pricing_formula.1 "Presidential" 3 5 (by norm_num) (by norm_num)).1

/-! ### Validation helper lemmas -/

/-- A conditional singleton is empty exactly when the condition fails. -/
theorem ite_singleton_eq_nil {c : Prop} [Decidable c] (m : String) :
    ((if c then [m] else []) = ([] : List String)) ↔ ¬c := by
  split <;> simp [*]

/-- Membership in a conditional singleton. -/
theorem mem_ite_singleton {c : Prop} [Decidable c] {m m' : String} :
    (m ∈ (if c then [m'] else [])) ↔ c ∧ m = m' := by
  split <;> simp [*]

/-- The validation error list is empty exactly when all four checks pass. -/
theorem validationErrors_nil_iff (req : BookingRequest) :
    validationErrors req = [] ↔
      (pyStripStr req.customer_name ≠ "" ∧
       pyStripStr req.customer_email ≠ "" ∧ validate_email req.customer_email = true ∧
       pyStripStr req.customer_phone ≠ "" ∧ validate_phone req.customer_phone = true ∧
       req.check_in < req.check_out) := by
  unfold validationErrors
  simp only [List.append_eq_nil, ite_singleton_eq_nil, not_or, Bool.not_eq_false, not_le]
  tauto

/-- The name message appears exactly when the trimmed name is empty. -/
theorem mem_validationErrors_name (req : BookingRequest) :
    ("Customer name is required" ∈ validationErrors req) ↔
      pyStripStr req.customer_name = "" := by
  have e1 : ("Customer name is required" : String) ≠ "Valid email address is required" := by decide
  have e2 : ("Customer name is required" : String) ≠ "Valid phone number is required" := by decide
  have e3 : ("Customer name is required" : String) ≠ "Check-out date must be after check-in date" := by decide
  unfold validationErrors
  simp only [List.mem_append, mem_ite_singleton, e1, e2, e3, and_true, and_false, or_false,
    false_or]

/-- The email message appears exactly when the email check fails. -/
theorem mem_validationErrors_email (req : BookingRequest) :
    ("Valid email address is required" ∈ validationErrors req) ↔
      (pyStripStr req.customer_email = "" ∨ validate_email req.customer_email = false) := by
  have e1 : ("Valid email address is required" : String) ≠ "Customer name is required" := by decide
  have e2 : ("Valid email address is required" : String) ≠ "Valid phone number is required" := by decide
  have e3 : ("Valid email address is required" : String) ≠ "Check-out date must be after check-in date" := by decide
  unfold validationErrors
  simp only [List.mem_append, mem_ite_singleton, e1, e2, e3, and_true, and_false, or_false,
    false_or]

/-- The phone message appears exactly when the phone check fails. -/
theorem mem_validationErrors_phone (req : BookingRequest) :
    ("Valid phone number is required" ∈ validationErrors req) ↔
      (pyStripStr req.customer_phone = "" ∨ validate_phone req.customer_phone = false) := by
  have e1 : ("Valid phone number is required" : String) ≠ "Customer name is required" := by decide
  have e2 : ("Valid phone number is required" : String) ≠ "Valid email address is required" := by decide
  have e3 : ("Valid phone number is required" : String) ≠ "Check-out date must be after check-in date" := by decide
  unfold validationErrors
  simp only [List.mem_append, mem_ite_singleton, e1, e2, e3, and_true, and_false, or_false,
    false_or]

/-- The date message appears exactly when the date check fails. -/
theorem mem_validationErrors_date (req : BookingRequest) :
    ("Check-out date must be after check-in date" ∈ validationErrors req) ↔
      req.check_out ≤ req.check_in := by
  have e1 : ("Check-out date must be after check-in date" : String) ≠ "Customer name is required" := by decide
  have e2 : ("Check-out date must be after check-in date" : String) ≠ "Valid email address is required" := by decide
  have e3 : ("Check-out date must be after check-in date" : String) ≠ "Valid phone number is required" := by decide
  unfold validationErrors
  simp only [List.mem_append, mem_ite_singleton, e1, e2, e3, and_true, and_false, or_false,
    false_or]

/-! ### Claim C2 -/

/-- Claim C2: when all four validations pass and an `Available` room of the
requested type exists in the rooms snapshot, the handler selects the first
such room, flips its status (every room record carrying its number) to
`Occupied` in the persisted rooms, and appends exactly one booking whose
`nights` is the day difference and whose `total_amount` comes from the
pricing engine. -/
theorem claim2_successful_booking (req : BookingRequest) (st : HotelState) (now : DateTimeStamp)
    (hname : pyStripStr req.customer_name ≠ "")
    (hemailne : pyStripStr req.customer_email ≠ "")
    (hemail : validate_email req.customer_email = true)
    (hphonene : pyStripStr req.customer_phone ≠ "")
    (hphone : validate_phone req.customer_phone = true)
    (hdate : req.check_in < req.check_out)
    (hroom : ∃ r ∈ st.rooms, r.room_type = req.room_type ∧ r.status = "Available") :
    ∃ sel b,
      (st.rooms.filter (fun r => r.status == "Available")).find?
          (fun r => r.room_type == req.room_type) = some sel ∧
      (submit_booking req st now).state.bookings = st.bookings ++ [b] ∧
      b.nights = req.check_out - req.check_in ∧
      b.total_amount =
        calculate_booking_amount req.room_type (req.check_out - req.check_in) req.guests ∧
      (submit_booking req st now).state.rooms = st.rooms.map (fun room =>
        if room.room_number = sel.room_number then { room with status := "Occupied" }
        else room) := by
  have hval : validationErrors req = [] :=
    (validationErrors_nil_iff req).mpr ⟨hname, hemailne, hemail, hphonene, hphone, hdate⟩
  have hsome : ((st.rooms.filter (fun r => r.status == "Available")).find?
      (fun r => r.room_type == req.room_type)).isSome := by
    rw [List.find?_isSome]
    obtain ⟨r, hr, ht, hs⟩ := hroom
    exact ⟨r, List.mem_filter.mpr ⟨hr, by simp [hs]⟩, by simp [ht]⟩
  obtain ⟨sel, hsel⟩ := Option.isSome_iff_exists.mp hsome
  refine ⟨sel, mkBooking req sel now, hsel, ?_, rfl, rfl, ?_⟩ <;>
    simp [submit_booking, hval, hsel]

/-- Witness for C2: a concrete valid request on a two-room state. -/
theorem claim2_successful_booking_witness :
    ∃ sel b,
      (stateA.rooms.filter (fun r => r.status == "Available")).find?
          (fun r => r.room_type == reqAlice.room_type) = some sel ∧
      (submit_booking reqAlice stateA ts1).state.bookings = stateA.bookings ++ [b] ∧
      b.nights = reqAlice.check_out - reqAlice.check_in ∧
      b.total_amount =
        calculate_booking_amount reqAlice.room_type
          (reqAlice.check_out - reqAlice.check_in) reqAlice.guests ∧
      (submit_booking reqAlice stateA ts1).state.rooms = stateA.rooms.map (fun room =>
        if room.room_number = sel.room_number then { room with status := "Occupied" }
        else room) :=
  claim2_successful_booking reqAlice stateA ts1 (by decide) (by decide) (by decide)
    (by decide) (by decide) (by decide) ⟨roomStd101, by decide, by decide, by decide⟩

/-! ### Claim C3 -/

/-- Claim C3: when any of the four validation checks fails, the handler
reports all failing checks (each failing check's message is in the shown
error list, each passing check's is not), creates no booking, and leaves
all three collections unchanged. -/
theorem claim3_validation_failure (req : BookingRequest) (st : HotelState) (now : DateTimeStamp)
    (h : pyStripStr req.customer_name = "" ∨
         pyStripStr req.customer_email = "" ∨ validate_email req.customer_email = false ∨
         pyStripStr req.customer_phone = "" ∨ validate_phone req.customer_phone = false ∨
         req.check_out ≤ req.check_in) :
    (submit_booking req st now).state = st ∧
    (submit_booking req st now).booking = none ∧
    (("Customer name is required" ∈ (submit_booking req st now).errors) ↔
       pyStripStr req.customer_name = "") ∧
    (("Valid email address is required" ∈ (submit_booking req st now).errors) ↔
       (pyStripStr req.customer_email = "" ∨ validate_email req.customer_email = false)) ∧
    (("Valid phone number is required" ∈ (submit_booking req st now).errors) ↔
       (pyStripStr req.customer_phone = "" ∨ validate_phone req.customer_phone = false)) ∧
    (("Check-out date must be after check-in date" ∈ (submit_booking req st now).errors) ↔
       req.check_out ≤ req.check_in) := by
  have hne : validationErrors req ≠ [] := by
    intro h0
    obtain ⟨h1, h2, h3, h4, h5, h6⟩ := (validationErrors_nil_iff req).mp h0
    rcases h with h | h | h | h | h | h
    · exact h1 h
    · exact h2 h
    · simp_all
    · exact h4 h
    · simp_all
    · omega
  have hout : submit_booking req st now =
      { errors := validationErrors req, booking := none, state := st } := by
    simp [submit_booking, hne]
  rw [hout]
  exact ⟨rfl, rfl, mem_validationErrors_name req, mem_validationErrors_email req,
    mem_validationErrors_phone req, mem_validationErrors_date req⟩

/-- Witness for C3: a concrete request failing all four validations. -/
theorem claim3_validation_failure_witness :
    (submit_booking reqBad stateA ts1).state = stateA ∧
    (submit_booking reqBad stateA ts1).booking = none ∧
    (("Customer name is required" ∈ (submit_booking reqBad stateA ts1).errors) ↔
       pyStripStr reqBad.customer_name = "") ∧
    (("Valid email address is required" ∈ (submit_booking reqBad stateA ts1).errors) ↔
       (pyStripStr reqBad.customer_email = "" ∨ validate_email reqBad.customer_email = false)) ∧
    (("Valid phone number is required" ∈ (submit_booking reqBad stateA ts1).errors) ↔
       (pyStripStr reqBad.customer_phone = "" ∨ validate_phone reqBad.customer_phone = false)) ∧
    (("Check-out date must be after check-in date" ∈ (submit_booking reqBad stateA ts1).errors) ↔
       reqBad.check_out ≤ reqBad.check_in) :=
  claim3_validation_failure reqBad stateA ts1 (Or.inl (by decide))

/-! ### Claim C5 -/

/-- Counterexample to C5 as stated: `reqDeluxe` passes all validations but no
`Available` Deluxe room exists in `stateA`; the claim says the submission
fails with a "no room of this type available" error, but the handler emits no
error message at all (the `if selected_room:` at src/index.py:301 has no
`else` branch): the shown error list is empty, no booking is made, and the
state is silently left unchanged. -/
theorem claim5_counterexample :
    (¬ ∃ r ∈ stateA.rooms, r.room_type = reqDeluxe.room_type ∧ r.status = "Available") ∧
    validationErrors reqDeluxe = [] ∧
    (submit_booking reqDeluxe stateA ts1).errors = [] ∧
    (submit_booking reqDeluxe stateA ts1).booking = none ∧
    (submit_booking reqDeluxe stateA ts1).state = stateA := by
  refine ⟨by decide, by decide, ?_, ?_, ?_⟩ <;> with_unfolding_all rfl

/-- Claim C5 as amended: when the four validations pass and no `Available`
room of the requested type exists, the handler silently does nothing — no
error message, no booking, no state change; when such a room exists, the
first matching room of the snapshot is the one selected (the created booking
carries its room number). -/
theorem claim5_no_room_silent (req : BookingRequest) (st : HotelState) (now : DateTimeStamp)
    (hname : pyStripStr req.customer_name ≠ "")
    (hemailne : pyStripStr req.customer_email ≠ "")
    (hemail : validate_email req.customer_email = true)
    (hphonene : pyStripStr req.customer_phone ≠ "")
    (hphone : validate_phone req.customer_phone = true)
    (hdate : req.check_in < req.check_out) :
    ((¬ ∃ r ∈ st.rooms, r.room_type = req.room_type ∧ r.status = "Available") →
       (submit_booking req st now).errors = [] ∧
       (submit_booking req st now).booking = none ∧
       (submit_booking req st now).state = st) ∧
    (∀ sel, (st.rooms.filter (fun r => r.status == "Available")).find?
        (fun r => r.room_type == req.room_type) = some sel →
      ∃ b, (submit_booking req st now).booking = some b ∧
        b.room_number = sel.room_number) := by
  have hval : validationErrors req = [] :=
    (validationErrors_nil_iff req).mpr ⟨hname, hemailne, hemail, hphonene, hphone, hdate⟩
  constructor
  · intro hno
    have hfind : (st.rooms.filter (fun r => r.status == "Available")).find?
        (fun r => r.room_type == req.room_type) = none := by
      rw [List.find?_eq_none]
      intro x hx
      rw [List.mem_filter] at hx
      simp only [beq_iff_eq] at hx ⊢
      intro ht
      exact hno ⟨x, hx.1, ht, hx.2⟩
    refine ⟨?_, ?_, ?_⟩ <;> simp [submit_booking, hval, hfind]
  · intro sel hsel
    exact ⟨mkBooking req sel now, by simp [submit_booking, hval, hsel], rfl⟩

/-- Witness for the amended C5 on a concrete no-Deluxe state. -/
theorem claim5_no_room_silent_witness :
    ((¬ ∃ r ∈ stateA.rooms, r.room_type = reqDeluxe.room_type ∧ r.status = "Available") →
       (submit_booking reqDeluxe stateA ts1).errors = [] ∧
       (submit_booking reqDeluxe stateA ts1).booking = none ∧
       (submit_booking reqDeluxe stateA ts1).state = stateA) ∧
    (∀ sel, (stateA.rooms.filter (fun r => r.status == "Available")).find?
        (fun r => r.room_type == reqDeluxe.room_type) = some sel →
      ∃ b, (submit_booking reqDeluxe stateA ts1).booking = some b ∧
        b.room_number = sel.room_number) :=
  claim5_no_room_silent reqDeluxe stateA ts1 (by decide) (by decide) (by decide)
    (by decide) (by decide) (by decide)

/-! ### Claim C8 -/

/-- Claim C8: on a successful booking, if a customer record with the request's
email already exists nothing is added and the stored records are unchanged
(whatever name/phone/address the request carries); otherwise exactly one new
customer record (carrying the request's details) is appended. -/
theorem claim8_customer_dedup (req : BookingRequest) (st : HotelState) (now : DateTimeStamp)
    (hname : pyStripStr req.customer_name ≠ "")
    (hemailne : pyStripStr req.customer_email ≠ "")
    (hemail : validate_email req.customer_email = true)
    (hphonene : pyStripStr req.customer_phone ≠ "")
    (hphone : validate_phone req.customer_phone = true)
    (hdate : req.check_in < req.check_out)
    (hroom : ∃ r ∈ st.rooms, r.room_type = req.room_type ∧ r.status = "Available") :
    ((∃ c ∈ st.customers, c.email = req.customer_email) →
       (submit_booking req st now).state.customers = st.customers) ∧
    ((¬ ∃ c ∈ st.customers, c.email = req.customer_email) →
       ∃ c, (submit_booking req st now).state.customers = st.customers ++ [c] ∧
         c.email = req.customer_email ∧ c.name = req.customer_name ∧
         c.phone = req.customer_phone) := by
  have hval : validationErrors req = [] :=
    (validationErrors_nil_iff req).mpr ⟨hname, hemailne, hemail, hphonene, hphone, hdate⟩
  have hsome : ((st.rooms.filter (fun r => r.status == "Available")).find?
      (fun r => r.room_type == req.room_type)).isSome := by
    rw [List.find?_isSome]
    obtain ⟨r, hr, ht, hs⟩ := hroom
    exact ⟨r, List.mem_filter.mpr ⟨hr, by simp [hs]⟩, by simp [ht]⟩
  obtain ⟨sel, hsel⟩ := Option.isSome_iff_exists.mp hsome
  constructor
  · intro hex
    have hany : (st.customers.any fun c => c.email == req.customer_email) = true := by
      rw [List.any_eq_true]
      obtain ⟨c, hc, he⟩ := hex
      exact ⟨c, hc, by simp [he]⟩
    simp [submit_booking, hval, hsel, hany]
  · intro hnex
    have hany : (st.customers.any fun c => c.email == req.customer_email) = false := by
      cases hb : (st.customers.any fun c => c.email == req.customer_email) with
      | false => rfl
      | true =>
        rw [List.any_eq_true] at hb
        obtain ⟨c, hc, he⟩ := hb
        rw [beq_iff_eq] at he
        exact absurd ⟨c, hc, he⟩ hnex
    exact ⟨mkCustomer req now, by simp [submit_booking, hval, hsel, hany], rfl, rfl, rfl⟩

/-- Witness for C8: a fresh email appends one customer record. -/
theorem claim8_customer_dedup_witness :
    ((∃ c ∈ stateA.customers, c.email = reqAlice.customer_email) →
       (submit_booking reqAlice stateA ts1).state.customers = stateA.customers) ∧
    ((¬ ∃ c ∈ stateA.customers, c.email = reqAlice.customer_email) →
       ∃ c, (submit_booking reqAlice stateA ts1).state.customers = stateA.customers ++ [c] ∧
         c.email = reqAlice.customer_email ∧ c.name = reqAlice.customer_name ∧
         c.phone = reqAlice.customer_phone) :=
  claim8_customer_dedup reqAlice stateA ts1 (by decide) (by decide) (by decide)
    (by decide) (by decide) (by decide) ⟨roomStd101, by decide, by decide, by decide⟩

/-! ### Claim C9 -/

/-- Claim C9: `load_data` returns the empty list whenever the backing file is
absent, unreadable, or holds malformed JSON, and returns the parsed records
otherwise; it is a total function (every exception is caught inside, nothing
propagates to the caller). -/
theorem claim9_load_data_defaults {α : Type} (fs : StoredFile α) :
    ((fs = StoredFile.absent ∨ fs = StoredFile.readFailure ∨ fs = StoredFile.parseFailure) →
      load_data fs = []) ∧
    (∀ rs, fs = StoredFile.content rs → load_data fs = rs) := by
  constructor
  · rintro (rfl | rfl | rfl) <;> rfl
  · rintro rs rfl
    rfl

/-- Witness for C9 on a concrete malformed file. -/
theorem claim9_load_data_defaults_witness :
    load_data (StoredFile.parseFailure : StoredFile ℕ) = [] :=
  (claim9_load_data_defaults StoredFile.parseFailure).1 (Or.inr (Or.inr rfl))

/-! ### Claim C10 -/

/-- Pairs of a mapped list zipped with the original are pointwise related. -/
theorem zip_map_self {α : Type} (f : α → α) (l : List α) :
    ∀ p ∈ (l.map f).zip l, p.1 = f p.2 := by
  induction l with
  | nil => intro p hp; simp at hp
  | cons a l ih =>
    intro p hp
    simp only [List.map_cons, List.zip_cons_cons, List.mem_cons] at hp
    rcases hp with rfl | hp
    · rfl
    · exact ih p hp

/-- Claim C10: a successful booking only appends one record to the bookings
collection (preserving the existing ones and their order) and only changes
the `status` field of room records whose number is the selected room's;
every other room field and every other room record is unchanged. -/
theorem claim10_frame (req : BookingRequest) (st : HotelState) (now : DateTimeStamp)
    (hname : pyStripStr req.customer_name ≠ "")
    (hemailne : pyStripStr req.customer_email ≠ "")
    (hemail : validate_email req.customer_email = true)
    (hphonene : pyStripStr req.customer_phone ≠ "")
    (hphone : validate_phone req.customer_phone = true)
    (hdate : req.check_in < req.check_out)
    (sel : Room)
    (hsel : (st.rooms.filter (fun r => r.status == "Available")).find?
        (fun r => r.room_type == req.room_type) = some sel) :
    (∃ b, (submit_booking req st now).state.bookings = st.bookings ++ [b]) ∧
    (submit_booking req st now).state.rooms.length = st.rooms.length ∧
    ∀ p ∈ ((submit_booking req st now).state.rooms).zip st.rooms,
      p.1.room_number = p.2.room_number ∧ p.1.room_type = p.2.room_type ∧
      p.1.price = p.2.price ∧ p.1.capacity = p.2.capacity ∧
      (p.2.room_number ≠ sel.room_number → p.1 = p.2) := by
  have hval : validationErrors req = [] :=
    (validationErrors_nil_iff req).mpr ⟨hname, hemailne, hemail, hphonene, hphone, hdate⟩
  have hrooms : (submit_booking req st now).state.rooms = st.rooms.map (fun room =>
      if room.room_number = sel.room_number then { room with status := "Occupied" }
      else room) := by
    simp [submit_booking, hval, hsel]
  refine ⟨⟨mkBooking req sel now, by simp [submit_booking, hval, hsel]⟩, ?_, ?_⟩
  · rw [hrooms, List.length_map]
  · intro p hp
    rw [hrooms] at hp
    have hfp := zip_map_self _ _ p hp
    obtain ⟨r1, r2⟩ := p
    simp only at hfp
    subst hfp
    by_cases hc : r2.room_number = sel.room_number
    · rw [if_pos hc]
      exact ⟨rfl, rfl, rfl, rfl, fun hn => absurd hc hn⟩
    · rw [if_neg hc]
      exact ⟨rfl, rfl, rfl, rfl, fun _ => rfl⟩

/-- Witness for C10 on the concrete two-room state. -/
theorem claim10_frame_witness :
    (∃ b, (submit_booking reqAlice stateA ts1).state.bookings = stateA.bookings ++ [b]) ∧
    (submit_booking reqAlice stateA ts1).state.rooms.length = stateA.rooms.length ∧
    ∀ p ∈ ((submit_booking reqAlice stateA ts1).state.rooms).zip stateA.rooms,
      p.1.room_number = p.2.room_number ∧ p.1.room_type = p.2.room_type ∧
      p.1.price = p.2.price ∧ p.1.capacity = p.2.capacity ∧
      (p.2.room_number ≠ roomStd101.room_number → p.1 = p.2) :=
  claim10_frame reqAlice stateA ts1 (by decide) (by decide) (by decide)
    (by decide) (by decide) (by decide) roomStd101 (by decide)

/-! ### Regex decomposition lemmas -/

/-- `listSplits` enumerates exactly the decompositions of a list. -/
theorem mem_listSplits (cs : List Char) :
    ∀ l r : List Char, (l, r) ∈ listSplits cs ↔ cs = l ++ r := by
  induction cs with
  | nil =>
    intro l r
    simp only [listSplits, List.mem_singleton, Prod.mk.injEq]
    constructor
    · rintro ⟨rfl, rfl⟩
      rfl
    · intro h
      obtain ⟨rfl, rfl⟩ := List.append_eq_nil.mp h.symm
      exact ⟨rfl, rfl⟩
  | cons c cs ih =>
    intro l r
    simp only [listSplits, List.mem_cons, List.mem_map, Prod.mk.injEq]
    constructor
    · rintro (⟨rfl, rfl⟩ | ⟨⟨l', r'⟩, hp, rfl, rfl⟩)
      · rfl
      · rw [List.cons_append, (ih l' r').mp hp]
    · intro h
      cases l with
      | nil =>
        left
        exact ⟨rfl, by simpa using h.symm⟩
      | cons c' l' =>
        right
        rw [List.cons_append] at h
        injection h with hc hcs
        subst hc
        exact ⟨(l', r), (ih l' r).mpr hcs, rfl, rfl⟩

/-- The tail check holds exactly on `'.'` followed by at least two letters. -/
theorem domainTailCheck_iff (r : List Char) :
    domainTailCheck r = true ↔
      ∃ t, r = '.' :: t ∧ 2 ≤ t.length ∧ (∀ c ∈ t, Char.isAlpha c = true) := by
  cases r with
  | nil =>
    simp [domainTailCheck]
  | cons c t =>
    simp only [domainTailCheck, Bool.and_eq_true, beq_iff_eq, decide_eq_true_eq,
      List.all_eq_true]
    constructor
    · rintro ⟨⟨rfl, h2⟩, ha⟩
      exact ⟨t, rfl, h2, ha⟩
    · rintro ⟨t', ht, h2, ha⟩
      injection ht with hc htl
      subst hc
      subst htl
      exact ⟨⟨rfl, h2⟩, ha⟩

/-- The domain check holds exactly on a nonempty domain-class run, a dot, and
a final label of at least two letters. -/
theorem domainCheck_iff (r : List Char) :
    domainCheck r = true ↔
      ∃ d t, r = d ++ '.' :: t ∧ d ≠ [] ∧ (∀ c ∈ d, emailDomainChar c = true) ∧
        2 ≤ t.length ∧ (∀ c ∈ t, Char.isAlpha c = true) := by
  unfold domainCheck
  rw [List.any_eq_true]
  constructor
  · rintro ⟨⟨d, r2⟩, hmem, hp⟩
    rw [mem_listSplits] at hmem
    simp only [Bool.and_eq_true, Bool.not_eq_true', List.isEmpty_eq_false,
      List.all_eq_true] at hp
    obtain ⟨⟨hne, hall⟩, htail⟩ := hp
    rw [domainTailCheck_iff] at htail
    obtain ⟨t, rfl, h2, ha⟩ := htail
    exact ⟨d, t, hmem, hne, hall, h2, ha⟩
  · rintro ⟨d, t, rfl, hne, hall, h2, ha⟩
    refine ⟨(d, '.' :: t), (mem_listSplits _ _ _).mpr rfl, ?_⟩
    simp only [Bool.and_eq_true, Bool.not_eq_true', List.isEmpty_eq_false,
      List.all_eq_true, domainTailCheck_iff]
    exact ⟨⟨hne, hall⟩, t, rfl, h2, ha⟩

/-- The after-local check holds exactly on `'@'` followed by a matching
domain part. -/
theorem afterLocalCheck_iff (r : List Char) :
    afterLocalCheck r = true ↔ ∃ rest, r = '@' :: rest ∧ domainCheck rest = true := by
  cases r with
  | nil =>
    simp [afterLocalCheck]
  | cons c rest =>
    simp only [afterLocalCheck, Bool.and_eq_true, beq_iff_eq]
    constructor
    · rintro ⟨rfl, hd⟩
      exact ⟨rest, rfl, hd⟩
    · rintro ⟨rest', h, hd⟩
      injection h with hc htl
      subst hc
      subst htl
      exact ⟨rfl, hd⟩

/-- The embedded email pattern accepts exactly the strings of the claimed
`local@domain.tld` shape. -/
theorem validate_email_core_iff (cs : List Char) :
    validate_email_core cs = true ↔ emailShapeP cs := by
  unfold validate_email_core emailShapeP
  rw [List.any_eq_true]
  constructor
  · rintro ⟨⟨l, r⟩, hmem, hp⟩
    rw [mem_listSplits] at hmem
    simp only [Bool.and_eq_true, Bool.not_eq_true', List.isEmpty_eq_false,
      List.all_eq_true] at hp
    obtain ⟨⟨hne, hall⟩, hafter⟩ := hp
    rw [afterLocalCheck_iff] at hafter
    obtain ⟨rest, rfl, hd⟩ := hafter
    rw [domainCheck_iff] at hd
    obtain ⟨d, t, rfl, hdne, hdall, h2, ha⟩ := hd
    exact ⟨l, d, t, hmem, hne, hall, hdne, hdall, h2, ha⟩
  · rintro ⟨l, d, t, rfl, hne, hall, hdne, hdall, h2, ha⟩
    refine ⟨(l, '@' :: (d ++ '.' :: t)), (mem_listSplits _ _ _).mpr rfl, ?_⟩
    simp only [Bool.and_eq_true, Bool.not_eq_true', List.isEmpty_eq_false,
      List.all_eq_true, afterLocalCheck_iff]
    refine ⟨⟨hne, hall⟩, d ++ '.' :: t, rfl, ?_⟩
    rw [domainCheck_iff]
    exact ⟨d, t, rfl, hdne, hdall, h2, ha⟩

/-- The `$`-before-newline disjunct of `validate_email` holds exactly when the
input is a shape match followed by one final newline. -/
theorem email_trailing_newline_iff (cs : List Char) :
    ((match cs.getLast? with
      | some c => (c == '\n') && validate_email_core cs.dropLast
      | none => false) = true) ↔
      ∃ t, cs = t ++ ['\n'] ∧ emailShapeP t := by
  cases h : cs.getLast? with
  | none =>
    rw [List.getLast?_eq_none_iff] at h
    subst h
    constructor
    · intro h'
      cases h'
    · rintro ⟨t, ht, _⟩
      exact absurd ht.symm (by simp)
  | some c =>
    simp only [Bool.and_eq_true, beq_iff_eq]
    constructor
    · rintro ⟨rfl, hcore⟩
      have hne : cs ≠ [] := by
        rintro rfl
        simp at h
      have hlast := List.getLast?_eq_getLast cs hne
      rw [hlast] at h
      injection h with h
      refine ⟨cs.dropLast, ?_, (validate_email_core_iff _).mp hcore⟩
      rw [← h]
      exact (List.dropLast_append_getLast hne).symm
    · rintro ⟨t, rfl, hshape⟩
      rw [List.getLast?_concat] at h
      injection h with h
      subst h
      exact ⟨rfl, by rw [List.dropLast_concat]; exact (validate_email_core_iff t).mpr hshape⟩

/-! ### Claim C6 -/

/-- Counterexample to C6 as stated: `"a@b.co\n"` carries a trailing newline,
so it does not have the claimed `local@domain.tld` shape (its last character
is not a letter), yet `validate_email` returns `true`, because the `$` anchor
of Python's `re.match` also matches just before a newline that ends the
string.  The claimed equivalence therefore fails. -/
theorem claim6_counterexample :
    validate_email "a@b.co\n" = true ∧ ¬ emailShapeP (String.data "a@b.co\n") := by
  constructor
  · decide
  · intro h
    have hcore := (validate_email_core_iff (String.data "a@b.co\n")).mpr h
    exact absurd hcore (by decide)

/-- Claim C6 as amended: `validate_email s` is true iff `s` has the
`local@domain.tld` shape of the claim — one or more characters from
letters/digits/`._%+-`, an `@`, a nonempty run of letters/digits/`.`/`-`, a
dot, and a final label of at least 2 letters — or `s` is such a shape
followed by a single trailing newline (an artifact of the `$` anchor).
The claim's two quoted examples also hold. -/
theorem claim6_email_shape :
    (∀ s : String, validate_email s = true ↔
      (emailShapeP s.data ∨ ∃ t, s.data = t ++ ['\n'] ∧ emailShapeP t)) ∧
    validate_email "a@b.co" = true ∧ validate_email "bad@" = false := by
  refine ⟨fun s => ?_, by decide, by decide⟩
  unfold validate_email
  rw [Bool.or_eq_true, validate_email_core_iff, email_trailing_newline_iff]

/-! ### Claim C7 -/

/-- A character between `'6'` and `'9'` is one of those four digits. -/
theorem char_range_69 (c : Char) (h6 : '6' ≤ c) (h9 : c ≤ '9') :
    c = '6' ∨ c = '7' ∨ c = '8' ∨ c = '9' := by
  have h6' : 54 ≤ c.toNat := h6
  have h9' : c.toNat ≤ 57 := h9
  have hval : c.toNat = 54 ∨ c.toNat = 55 ∨ c.toNat = 56 ∨ c.toNat = 57 := by omega
  have hofn : Char.ofNat c.toNat = c := Char.ofNat_toNat c
  rcases hval with h | h | h | h <;> rw [h] at hofn
  · exact Or.inl hofn.symm
  · exact Or.inr (Or.inl hofn.symm)
  · exact Or.inr (Or.inr (Or.inl hofn.symm))
  · exact Or.inr (Or.inr (Or.inr hofn.symm))

/-- The source's subscriber pattern `[6-9]\d{9}` accepts exactly the claim's
"exactly 10 digits whose first digit is 6, 7, 8 or 9". -/
theorem subscriberMatch_eq_tenDigits (cs : List Char) :
    subscriberMatch cs = tenDigits cs := by
  cases cs with
  | nil => rfl
  | cons c rest =>
    apply bool_ext
    simp only [subscriberMatch, tenDigits, Bool.and_eq_true, Bool.or_eq_true,
      decide_eq_true_eq, beq_iff_eq, List.all_eq_true, List.length_cons, List.all_cons,
      List.mem_cons]
    constructor
    · rintro ⟨⟨⟨h6, h9⟩, hlen⟩, hdig⟩
      have henum := char_range_69 c h6 h9
      rcases henum with rfl | rfl | rfl | rfl <;>
        exact ⟨⟨by omega, by decide, hdig⟩, by decide⟩
    · rintro ⟨⟨hlen, hdigc, hdig⟩, henum⟩
      rcases henum with ((rfl | rfl) | rfl) | rfl <;>
        exact ⟨⟨⟨by decide, by decide⟩, by omega⟩, hdig⟩

/-- Counterexample to C7 as stated: the source pattern allows one `-` or
whitespace separator after the `+91` prefix (`[-\s]?`), so
`"+91 9876543210"` is accepted by `validate_phone`, but it is not of the
claimed shape "optional `'+91'` prefix followed by exactly 10 digits".  The
claimed equivalence therefore fails. -/
theorem claim7_counterexample :
    validate_phone "+91 9876543210" = true ∧ phoneShape "+91 9876543210" = false := by
  constructor <;> decide

/-- Claim C7 as amended: `validate_phone s` is true iff the
whitespace-trimmed input is an optional `+91` prefix, optionally followed by
a single `-` or whitespace separator, followed by exactly 10 digits whose
first digit is 6, 7, 8 or 9.  The claim's two quoted examples also hold, and
the function is pure (a Lean function of its argument). -/
theorem claim7_phone_shape :
    (∀ s : String, validate_phone s = phoneShapeAmended s) ∧
    validate_phone "9876543210" = true ∧ validate_phone "1234567890" = false := by
  refine ⟨fun s => ?_, by decide, by decide⟩
  unfold validate_phone phoneShapeAmended validate_phone_core
  simp only [subscriberMatch_eq_tenDigits]

/-! ### Timestamp formatting lemmas -/

/-- `Nat.digitChar` is injective below 10. -/
theorem digitChar_inj_lt10 :
    ∀ a, a < 10 → ∀ b, b < 10 → Nat.digitChar a = Nat.digitChar b → a = b := by
  decide

/-- `lowDigits` always produces `w` characters. -/
theorem lowDigits_length (w : ℕ) : ∀ n, (lowDigits w n).length = w := by
  induction w with
  | zero => intro n; rfl
  | succ w ih => intro n; simp [lowDigits, ih]

/-- `lowDigits` is injective below `10 ^ w`. -/
theorem lowDigits_inj (w : ℕ) :
    ∀ n m, n < 10 ^ w → m < 10 ^ w → lowDigits w n = lowDigits w m → n = m := by
  induction w with
  | zero =>
    intro n m hn hm _
    simp only [Nat.pow_zero, Nat.lt_one_iff] at hn hm
    omega
  | succ w ih =>
    intro n m hn hm h
    simp only [lowDigits, List.cons.injEq] at h
    obtain ⟨hhead, htail⟩ := h
    have e1 : n % 10 = m % 10 :=
      digitChar_inj_lt10 _ (Nat.mod_lt _ (by omega)) _ (Nat.mod_lt _ (by omega)) hhead
    have hn' : n / 10 < 10 ^ w := by
      rw [Nat.div_lt_iff_lt_mul (by norm_num), ← Nat.pow_succ]
      exact hn
    have hm' : m / 10 < 10 ^ w := by
      rw [Nat.div_lt_iff_lt_mul (by norm_num), ← Nat.pow_succ]
      exact hm
    have e2 : n / 10 = m / 10 := ih _ _ hn' hm' htail
    omega

/-- `padDigits` always produces `w` characters. -/
theorem padDigits_length (w n : ℕ) : (padDigits w n).length = w := by
  simp [padDigits, lowDigits_length]

/-- `padDigits` is injective below `10 ^ w`. -/
theorem padDigits_inj (w n m : ℕ) (hn : n < 10 ^ w) (hm : m < 10 ^ w)
    (h : padDigits w n = padDigits w m) : n = m :=
  lowDigits_inj w n m hn hm (List.reverse_injective h)

/-- The compact `strftime('%Y%m%d%H%M%S')` body determines the clock reading:
for valid (real-clock, four-digit-year) readings the formatting is injective. -/
theorem tsCompact_inj (dt1 dt2 : DateTimeStamp) (h1 : dt1.Valid) (h2 : dt2.Valid)
    (h : tsCompact dt1 = tsCompact dt2) : dt1 = dt2 := by
  obtain ⟨y1, mo1, d1, hh1, mi1, s1⟩ := dt1
  obtain ⟨y2, mo2, d2, hh2, mi2, s2⟩ := dt2
  obtain ⟨hy1, hmo1l, hmo1, hd1l, hd1, hhr1, hmi1, hs1⟩ := h1
  obtain ⟨hy2, hmo2l, hmo2, hd2l, hd2, hhr2, hmi2, hs2⟩ := h2
  simp only at hy1 hmo1l hmo1 hd1l hd1 hhr1 hmi1 hs1 hy2 hmo2l hmo2 hd2l hd2 hhr2 hmi2 hs2
  have hd : padDigits 4 y1 ++ (padDigits 2 mo1 ++ (padDigits 2 d1 ++ (padDigits 2 hh1 ++
      (padDigits 2 mi1 ++ padDigits 2 s1)))) =
      padDigits 4 y2 ++ (padDigits 2 mo2 ++ (padDigits 2 d2 ++ (padDigits 2 hh2 ++
      (padDigits 2 mi2 ++ padDigits 2 s2)))) := by
    have hdata := congrArg String.data h
    simpa [tsCompact] using hdata
  have p4 : (10 : ℕ) ^ 4 = 10000 := by norm_num
  have p2 : (10 : ℕ) ^ 2 = 100 := by norm_num
  obtain ⟨ey, hd⟩ := List.append_inj hd (by rw [padDigits_length, padDigits_length])
  obtain ⟨emo, hd⟩ := List.append_inj hd (by rw [padDigits_length, padDigits_length])
  obtain ⟨ed, hd⟩ := List.append_inj hd (by rw [padDigits_length, padDigits_length])
  obtain ⟨ehh, hd⟩ := List.append_inj hd (by rw [padDigits_length, padDigits_length])
  obtain ⟨emi, es⟩ := List.append_inj hd (by rw [padDigits_length, padDigits_length])
  have hy : y1 = y2 := padDigits_inj 4 _ _ (by rw [p4]; omega) (by rw [p4]; omega) ey
  have hmo : mo1 = mo2 := padDigits_inj 2 _ _ (by rw [p2]; omega) (by rw [p2]; omega) emo
  have hdy : d1 = d2 := padDigits_inj 2 _ _ (by rw [p2]; omega) (by rw [p2]; omega) ed
  have hhr : hh1 = hh2 := padDigits_inj 2 _ _ (by rw [p2]; omega) (by rw [p2]; omega) ehh
  have hmin : mi1 = mi2 := padDigits_inj 2 _ _ (by rw [p2]; omega) (by rw [p2]; omega) emi
  have hsec : s1 = s2 := padDigits_inj 2 _ _ (by rw [p2]; omega) (by rw [p2]; omega) es
  simp only [DateTimeStamp.mk.injEq]
  exact ⟨hy, hmo, hdy, hhr, hmin, hsec⟩

/-- Any booking the handler creates carries the id `"BK"` followed by the
compact formatting of the submission-time clock reading. -/
theorem booking_id_of_submit (req : BookingRequest) (st : HotelState) (now : DateTimeStamp)
    (b : Booking) (h : (submit_booking req st now).booking = some b) :
    b.booking_id = "BK" ++ tsCompact now := by
  simp only [submit_booking] at h
  split at h
  · split at h
    · simp only [Option.some.injEq] at h
      rw [← h]
      rfl
    · simp at h
  · simp at h

/-! ### Claim C4 -/

/-- Counterexample to C4 as stated: the booking id is
`"BK" + strftime('%Y%m%d%H%M%S')`, a pure function of the current clock at
second granularity.  Two submissions performed within the same second (here
both at `ts1`) produce two distinct bookings carrying the same id, so the
bookings collection does contain two bookings with equal ids. -/
theorem claim4_counterexample :
    ((submit_booking reqBob (submit_booking reqAlice stateA ts1).state ts1).state.bookings.map
        (fun b => b.booking_id)) = ["BK20251012093015", "BK20251012093015"] ∧
    ((submit_booking reqBob (submit_booking reqAlice stateA ts1).state ts1).state.bookings.map
        (fun b => b.customer_name)) = ["Alice", "Bob"] := by
  constructor <;> with_unfolding_all rfl

/-- Claim C4 as amended: booking ids generated by the handler are unique
exactly as far as the second-granularity creation timestamps are distinct:
two bookings created by `submit_booking` at valid clock readings carry equal
ids if and only if the readings are equal.  (Calls within the same second
therefore collide, as the counterexample shows.) -/
theorem claim4_id_unique_iff_distinct_second (dt1 dt2 : DateTimeStamp)
    (h1 : dt1.Valid) (h2 : dt2.Valid)
    (req1 req2 : BookingRequest) (st1 st2 : HotelState) (b1 b2 : Booking)
    (hb1 : (submit_booking req1 st1 dt1).booking = some b1)
    (hb2 : (submit_booking req2 st2 dt2).booking = some b2) :
    b1.booking_id = b2.booking_id ↔ dt1 = dt2 := by
  rw [booking_id_of_submit _ _ _ _ hb1, booking_id_of_submit _ _ _ _ hb2]
  constructor
  · intro h
    apply tsCompact_inj _ _ h1 h2
    have hdata := congrArg String.data h
    simp only [String.data_append] at hdata
    exact String.ext (List.append_cancel_left hdata)
  · rintro rfl
    rfl

/-- Witness for the amended C4: two concrete submissions one second apart. -/
theorem claim4_id_unique_witness :
    (mkBooking reqAlice roomStd101 ts1).booking_id =
        (mkBooking reqBob roomStd101 ts2).booking_id ↔ ts1 = ts2 :=
  claim4_id_unique_iff_distinct_second ts1 ts2
    (by unfold DateTimeStamp.Valid; decide) (by unfold DateTimeStamp.Valid; decide)
    reqAlice reqBob stateA stateA (mkBooking reqAlice roomStd101 ts1)
    (mkBooking reqBob roomStd101 ts2) (by with_unfolding_all rfl)
    (by with_unfolding_all rfl)

end Hotel
